import Mathlib

/-!
Verification of the Hostel Management API (main.py, schemas.py) against its
natural-language specification.

The development shallowly embeds the request handlers of main.py as pure Lean
functions over an explicit store state.  Conventions:

* The MongoDB store (accessed through pymongo and through the create_document
  helper of the absent database.py module) is modelled as lists of records,
  one list per collection, inside a DB structure.  find_one returns the first
  matching record, update_one rewrites the first matching record, and inserts
  append.  The server-set created_at and updated_at timestamps are metadata
  that no claim mentions and are elided from the record structures.
* JWT signing (PyJWT, HS256) is modelled symbolically: the signature of a
  payload under a secret is the pair (secret, payload), and verification
  checks that the token carries exactly that pair.  jwt.decode verifies the
  signature first and the exp claim second, as PyJWT does; exp comparison is
  "expired when exp is at most now" (PyJWT leeway 0).
* bson ObjectId well-formedness for a string is: exactly 24 hex characters.
* User documents are taken to conform to the User schema of schemas.py, so
  the fields name, email, password and role are present strings and the
  dict.get defaults of main.py collapse to plain field reads.
* An HTTPException raised by a handler is the err constructor of ApiResult
  (status code and detail string); an exception that no handler catches
  (for example bson InvalidId escaping get_current_user) is the dedicated
  uncaught constructor of AuthOutcome, distinct from every structured
  response.
-/

namespace Hostel

/-- Decoded JWT claim set, as built by encode_token (main.py 55-63):
subject id, name, email, role and the expiry instant in unix seconds. -/
structure Payload where
  sub : String
  name : String
  email : String
  role : String
  exp : Nat
deriving DecidableEq

/-- Symbolic MAC of a payload under a shared secret: verification succeeds
exactly for the pair produced with the same secret and the same payload. -/
def signPayload (secret : String) (p : Payload) : String × Payload :=
  (secret, p)

/-- A JWT: its claim payload together with its (symbolic) HS256 signature. -/
structure Token where
  payload : Payload
  sig : String × Payload
deriving DecidableEq

/-- Failure modes of jwt.decode that main.py distinguishes. -/
inductive DecodeError
  | expired
  | invalid
deriving DecidableEq

/-- jwt.decode(token, secret, algorithms=[HS256]) as used in main.py 69:
PyJWT verifies the signature first (any mismatch raises an invalid-token
error, also for malformed input or a wrong secret) and then validates the
exp claim with zero leeway, expired when exp is at most the current time. -/
def jwtDecode (secret : String) (now : Nat) (t : Token) : Except DecodeError Payload :=
  if t.sig = signPayload secret t.payload then
    if t.payload.exp ≤ now then Except.error DecodeError.expired
    else Except.ok t.payload
  else Except.error DecodeError.invalid

/-- Hexadecimal character, upper or lower case. -/
def isHexChar (c : Char) : Bool :=
  c.isDigit || (Char.ofNat 97 ≤ c && c ≤ Char.ofNat 102) || (Char.ofNat 65 ≤ c && c ≤ Char.ofNat 70)

/-- A string is accepted by the bson ObjectId constructor exactly when it is
24 hexadecimal characters. -/
def isValidObjectId (s : String) : Bool :=
  s.length == 24 && s.toList.all isHexChar

/-- ObjectId(s) on a string: the canonical id on a well-formed string,
none when the constructor raises bson InvalidId. -/
def objectId? (s : String) : Option String :=
  if isValidObjectId s then some s else none

/-- to_object_id (main.py 94-98): converts a caller-supplied id string,
raising HTTPException 400 on a malformed one; the none result stands for
that 400 response. -/
def to_object_id (s : String) : Option String :=
  objectId? s

/-- Hex digit character for a value below 16. -/
def hexChar (n : Nat) : Char :=
  if n < 10 then Char.ofNat (48 + n) else Char.ofNat (87 + n)

/-- Little-endian list of k hex digits of n. -/
def hexDigitsAux : Nat → Nat → List Char
  | 0, _ => []
  | k + 1, n => hexChar (n % 16) :: hexDigitsAux k (n / 16)

/-- Canonical 24-hex-character ObjectId string for a counter value, the
store-assigned unique identifier of newly inserted documents. -/
def objectIdOfNat (n : Nat) : String :=
  String.mk (hexDigitsAux 24 n).reverse

/-- Stored user document, conforming to the User schema (schemas.py 19-25);
id is the string form of the store-assigned unique identifier. -/
structure StoredUser where
  id : String
  name : String
  email : String
  password : String
  role : String
deriving DecidableEq

/-- Stored student document (schemas.py 36-45); the optional profile fields
play no part in any claim and are elided. -/
structure StoredStudent where
  id : String
  user_id : String
deriving DecidableEq

/-- Stored room document (schemas.py 58-66). -/
structure StoredRoom where
  id : String
  hostel_id : String
  room_no : String
  capacity : Int
  current_occupancy : Int
  type : Option String
  floor : Option Int
deriving DecidableEq

/-- Stored room allocation document (schemas.py 68-74); dates are kept as
opaque strings. -/
structure StoredAllocation where
  id : String
  student_id : String
  room_id : String
  allocation_date : String
  exit_date : Option String
deriving DecidableEq

/-- Stored leave request document (schemas.py 108-115). -/
structure StoredLeave where
  id : String
  student_id : String
  from_date : String
  to_date : String
  reason : Option String
  status : String
deriving DecidableEq

/-- Stored complaint document (schemas.py 121-127). -/
structure StoredComplaint where
  id : String
  student_id : String
  category : String
  description : String
  status : String
deriving DecidableEq

/-- Stored complaint update document (schemas.py 129-133). -/
structure StoredComplaintUpdate where
  id : String
  complaint_id : String
  message : String
  updated_by : String
deriving DecidableEq

/-- The document store: one list per collection that the claims touch, plus
the counter from which the store assigns fresh unique identifiers.
Modelled from the spec: database.py is not among the sources; section 4.3
of the spec gives its contract (create inserts the submitted record with all
its fields and returns a fresh unique id as an opaque string; find returns a
matching record or absent; update rewrites the matched record). -/
structure DB where
  user : List StoredUser := []
  student : List StoredStudent := []
  room : List StoredRoom := []
  roomallocation : List StoredAllocation := []
  leaverequest : List StoredLeave := []
  complaint : List StoredComplaint := []
  complaintupdate : List StoredComplaintUpdate := []
  nextId : Nat := 0
deriving DecidableEq

/-- The id the store assigns to the next inserted document. -/
def freshId (d : DB) : String :=
  objectIdOfNat d.nextId

/-- Rewrite the first element satisfying p, as mongo update_one does on the
first document matching its filter; a list without a match is unchanged. -/
def updateFirst {α : Type} (p : α → Bool) (f : α → α) : List α → List α
  | [] => []
  | x :: xs => if p x then f x :: xs else x :: updateFirst p f xs

/-- Structured API outcome of a handler: a successful JSON response or an
HTTPException with its status code and detail message. -/
inductive ApiResult (α : Type)
  | ok (a : α)
  | err (status : Nat) (detail : String)
deriving DecidableEq

/-- Authenticated identity (main.py 48-52), built from the re-fetched user
document. -/
structure AuthUser where
  id : String
  name : String
  email : String
  role : String
deriving DecidableEq

/-- Outcome of the get_current_user dependency: an authenticated identity, a
structured HTTPException, or an exception that escapes uncaught (no handler
in main.py catches it, so the framework turns it into an unclassified
internal server error). -/
inductive AuthOutcome
  | ok (u : AuthUser)
  | err (status : Nat) (detail : String)
  | uncaught
deriving DecidableEq

/-- Login request body (main.py 39-41); the EmailStr shape check is boundary
validation that no claim depends on, so the email stays an opaque string. -/
structure LoginRequest where
  email : String
  password : String
deriving DecidableEq

/-- Login response body (main.py 43-46). -/
structure TokenResponse where
  access_token : Token
  token_type : String := "bearer"
  expires_in : Nat
deriving DecidableEq

/-- Room creation body, the Room schema (schemas.py 58-66): capacity carries
the boundary constraint ge 1, current_occupancy is an ordinary int field
with default 0 that the caller may set. -/
structure RoomCreate where
  hostel_id : String
  room_no : String
  capacity : Int
  current_occupancy : Int := 0
  type : Option String := none
  floor : Option Int := none
deriving DecidableEq

/-- Boundary validation of the Room schema: the only value constraint is
capacity at least 1 (Field ge 1, schemas.py 61). -/
def RoomCreate.valid (r : RoomCreate) : Bool :=
  1 ≤ r.capacity

/-- Room allocation body, the RoomAllocation schema (schemas.py 68-74). -/
structure RoomAllocationIn where
  student_id : String
  room_id : String
  allocation_date : String
  exit_date : Option String := none
deriving DecidableEq

/-- Complaint update body, the ComplaintUpdate schema (schemas.py 129-133). -/
structure ComplaintUpdateIn where
  complaint_id : String
  message : String
  updated_by : String
deriving DecidableEq

/-- Leave status update body (main.py 246-247): a plain string field; the
source restricts it only by a comment, not by a validator. -/
structure LeaveStatusBody where
  status : String
deriving DecidableEq

/-- encode_token (main.py 55-63): the payload embeds the user id as subject,
name, email, role, and expiry now plus JWT-EXPIRES-MIN minutes (env
configurable, default 60), signed with the shared secret (env configurable,
default dev-secret). -/
def encode_token (secret : String) (expiresMin : Nat) (now : Nat) (user : StoredUser) : Token :=
  let payload : Payload :=
    { sub := user.id, name := user.name, email := user.email, role := user.role,
      exp := now + expiresMin * 60 }
  { payload := payload, sig := signPayload secret payload }

/-- login (main.py 134-140): fetch the first user document whose email
matches, reject with 401 unless its password equals the submitted one by
exact string comparison, else issue a signed token. -/
def login (secret : String) (expiresMin : Nat) (now : Nat) (d : DB) (data : LoginRequest) :
    ApiResult TokenResponse :=
  match d.user.find? (fun u => u.email == data.email) with
  | none => ApiResult.err 401 ("Invalid email or password")
  | some user =>
    if user.password != data.password then ApiResult.err 401 ("Invalid email or password")
    else ApiResult.ok
      { access_token := encode_token secret expiresMin now user,
        expires_in := expiresMin * 60 }

/-- get_current_user (main.py 66-80): decode the bearer token (401 with
detail Token expired on an expired signature-valid token, 401 Invalid token
on any other decode failure), then re-fetch the user by the embedded
subject id.  The ObjectId conversion on line 76 is the raw constructor, not
to_object_id, and sits outside the try block, so a malformed subject id
raises bson InvalidId uncaught.  A missing user yields 401 User not found. -/
def get_current_user (secret : String) (now : Nat) (d : DB) (token : Token) : AuthOutcome :=
  match jwtDecode secret now token with
  | Except.error DecodeError.expired => AuthOutcome.err 401 ("Token expired")
  | Except.error DecodeError.invalid => AuthOutcome.err 401 ("Invalid token")
  | Except.ok payload =>
    match objectId? payload.sub with
    | none => AuthOutcome.uncaught
    | some oid =>
      match d.user.find? (fun u => u.id == oid) with
      | none => AuthOutcome.err 401 ("User not found")
      | some user => AuthOutcome.ok ⟨user.id, user.name, user.email, user.role⟩

/-- require_roles (main.py 83-88): 403 unless the identity role is in the
allow-list, compared as exact strings. -/
def require_roles (roles : List String) (user : AuthUser) : ApiResult AuthUser :=
  if roles.contains user.role then ApiResult.ok user
  else ApiResult.err 403 ("Forbidden: insufficient role")

/-- get_student (main.py 154-163): 400 on a malformed path id, 404 when the
student document is absent, and only then, for an identity whose role is
exactly the string student, 403 unless the document user_id equals the
identity id; otherwise the document is returned. -/
def get_student (student_id : String) (user : AuthUser) (d : DB) : ApiResult StoredStudent :=
  match to_object_id student_id with
  | none => ApiResult.err 400 ("Invalid id")
  | some oid =>
    match d.student.find? (fun s => s.id == oid) with
    | none => ApiResult.err 404 ("Student not found")
    | some doc =>
      if user.role == "student" && doc.user_id != user.id then ApiResult.err 403 ("Forbidden")
      else ApiResult.ok doc

/-- create_room (main.py 187-190): insert the submitted Room body as a new
document, all submitted fields kept, including the caller-supplied
current_occupancy, and return the fresh id. -/
def create_room (d : DB) (room : RoomCreate) : ApiResult String × DB :=
  let rid := freshId d
  (ApiResult.ok rid,
   { d with
     room := d.room ++
       [⟨rid, room.hostel_id, room.room_no, room.capacity, room.current_occupancy,
         room.type, room.floor⟩],
     nextId := d.nextId + 1 })

/-- get_available_rooms route (main.py 192-197).  The handler declares no
security dependency at all, so the optional Authorization header of the
request is never examined and the body always runs: it returns the rooms
whose current_occupancy is strictly below capacity. -/
def get_available_rooms_route (authHeader : Option Token) (d : DB) :
    ApiResult (List StoredRoom) :=
  ApiResult.ok (d.room.filter (fun r => r.current_occupancy < r.capacity))

/-- allocate_room (main.py 199-205): first insert the allocation record via
create_document, then convert alloc.room_id with to_object_id (a malformed
one raises 400 after the insert already happened) and increment
current_occupancy of the first room matching the id; a filter that matches
no room is silently ignored and the fresh allocation id is returned either
way.  No capacity check occurs anywhere. -/
def allocate_room (d : DB) (alloc : RoomAllocationIn) : ApiResult String × DB :=
  let aid := freshId d
  let d1 : DB :=
    { d with
      roomallocation := d.roomallocation ++
        [⟨aid, alloc.student_id, alloc.room_id, alloc.allocation_date, alloc.exit_date⟩],
      nextId := d.nextId + 1 }
  match to_object_id alloc.room_id with
  | none => (ApiResult.err 400 ("Invalid id"), d1)
  | some oid =>
    (ApiResult.ok aid,
     { d1 with
       room := updateFirst (fun r => r.id == oid)
         (fun r => { r with current_occupancy := r.current_occupancy + 1 }) d1.room })

/-- Sequential execution of a list of room-allocation requests, each against
the store state the previous one left. -/
def allocateList : List RoomAllocationIn → DB → DB
  | [], d => d
  | a :: as, d => allocateList as (allocate_room d a).2

/-- update_leave_status (main.py 249-254): 400 on a malformed path id, then
update_one sets the submitted status string on the first matching leave
request, and a request matching nothing yields 404. -/
def update_leave_status (leave_id : String) (body : LeaveStatusBody) (d : DB) :
    ApiResult Bool × DB :=
  match to_object_id leave_id with
  | none => (ApiResult.err 400 ("Invalid id"), d)
  | some oid =>
    let d1 : DB :=
      { d with
        leaverequest := updateFirst (fun l => l.id == oid)
          (fun l => { l with status := body.status }) d.leaverequest }
    if d.leaverequest.any (fun l => l.id == oid) then (ApiResult.ok true, d1)
    else (ApiResult.err 404 ("Leave request not found"), d1)

/-- add_complaint_update (main.py 267-276): 400 on a malformed path id, 404
when no complaint matches the path id; otherwise insert the submitted body
as a complaint update record (referencing the complaint id carried in the
body, which is never compared with the path) and set the status of the
first complaint matching the path id to in-progress, whatever it was. -/
def add_complaint_update (complaint_id : String) (upd : ComplaintUpdateIn) (d : DB) :
    ApiResult String × DB :=
  match to_object_id complaint_id with
  | none => (ApiResult.err 400 ("Invalid id"), d)
  | some oid =>
    match d.complaint.find? (fun c => c.id == oid) with
    | none => (ApiResult.err 404 ("Complaint not found"), d)
    | some _ =>
      let uid := freshId d
      let d1 : DB :=
        { d with
          complaintupdate := d.complaintupdate ++
            [⟨uid, upd.complaint_id, upd.message, upd.updated_by⟩],
          nextId := d.nextId + 1 }
      (ApiResult.ok uid,
       { d1 with
         complaint := updateFirst (fun c => c.id == oid)
           (fun c => { c with status := "in_progress" }) d1.complaint })

/-! Concrete store states and tokens used to instantiate the theorems. -/

/-- A stored warden user. -/
def demoUser : StoredUser :=
  ⟨"aaaaaaaaaaaaaaaaaaaaaaa1", "Ann", "ann@example.com", "pw", "warden"⟩

/-- Store holding exactly demoUser. -/
def demoDB : DB :=
  { user := [demoUser] }

/-- Payload of a token for demoUser that expires at instant 50. -/
def demoPayload : Payload :=
  { sub := "aaaaaaaaaaaaaaaaaaaaaaa1", name := "Ann", email := "ann@example.com",
    role := "warden", exp := 50 }

/-- Correctly signed token carrying demoPayload; expired from instant 50 on. -/
def expiredToken : Token :=
  { payload := demoPayload, sig := signPayload ("dev-secret") demoPayload }

/-- Payload of an unexpired token for demoUser. -/
def demoPayloadLong : Payload :=
  { sub := "aaaaaaaaaaaaaaaaaaaaaaa1", name := "Ann", email := "ann@example.com",
    role := "warden", exp := 1000 }

/-- Unexpired token signed under a different secret: its signature does not
verify under dev-secret. -/
def tamperedToken : Token :=
  { payload := demoPayloadLong, sig := signPayload ("wrong-secret") demoPayloadLong }

/-- Correctly signed unexpired token for demoUser. -/
def okToken : Token :=
  { payload := demoPayloadLong, sig := signPayload ("dev-secret") demoPayloadLong }

/-- Payload whose subject is a well-formed id that matches no stored user. -/
def ghostPayload : Payload :=
  { sub := "aaaaaaaaaaaaaaaaaaaaaaa2", name := "Gus", email := "gus@example.com",
    role := "student", exp := 1000 }

/-- Correctly signed unexpired token whose subject matches no stored user. -/
def ghostToken : Token :=
  { payload := ghostPayload, sig := signPayload ("dev-secret") ghostPayload }

/-- Payload whose subject is not a well-formed ObjectId string. -/
def badSubPayload : Payload :=
  { sub := "demo", name := "Ann", email := "ann@example.com",
    role := "student", exp := 1000 }

/-- Correctly signed unexpired token whose embedded subject id is malformed. -/
def badSubToken : Token :=
  { payload := badSubPayload, sig := signPayload ("dev-secret") badSubPayload }

/-- First stored user with the duplicated email. -/
def dupUserA : StoredUser :=
  ⟨"aaaaaaaaaaaaaaaaaaaaaaa3", "Ada", "dup@example.com", "pw-a", "admin"⟩

/-- Second stored user with the duplicated email and a different password. -/
def dupUserB : StoredUser :=
  ⟨"aaaaaaaaaaaaaaaaaaaaaaa4", "Bea", "dup@example.com", "pw-b", "student"⟩

/-- Store holding two users that share one email. -/
def dupDB : DB :=
  { user := [dupUserA, dupUserB] }

/-- A room of capacity 2 with no occupants yet. -/
def demoRoom : StoredRoom :=
  ⟨"aaaaaaaaaaaaaaaaaaaaaaa5", "h1", "A101", 2, 0, none, none⟩

/-- Store holding exactly demoRoom. -/
def allocDB : DB :=
  { room := [demoRoom] }

/-- Allocation request targeting demoRoom. -/
def demoAlloc : RoomAllocationIn :=
  { student_id := "s1", room_id := "aaaaaaaaaaaaaaaaaaaaaaa5",
    allocation_date := "2024-01-01" }

/-- Stored user whose role string is Student with a capital letter. -/
def caseUser : StoredUser :=
  ⟨"aaaaaaaaaaaaaaaaaaaaaaa6", "Cam", "cam@example.com", "pw", "Student"⟩

/-- Student record owned by a different user than caseUser. -/
def ownerStudent : StoredStudent :=
  ⟨"aaaaaaaaaaaaaaaaaaaaaaa7", "aaaaaaaaaaaaaaaaaaaaaaa8"⟩

/-- Store holding caseUser and the student record of someone else. -/
def caseDB : DB :=
  { user := [caseUser], student := [ownerStudent] }

/-- Payload of a token for caseUser. -/
def casePayload : Payload :=
  { sub := "aaaaaaaaaaaaaaaaaaaaaaa6", name := "Cam", email := "cam@example.com",
    role := "Student", exp := 1000 }

/-- Correctly signed unexpired token for caseUser. -/
def caseToken : Token :=
  { payload := casePayload, sig := signPayload ("dev-secret") casePayload }

/-- The identity get_current_user yields for caseToken. -/
def caseAuth : AuthUser :=
  ⟨"aaaaaaaaaaaaaaaaaaaaaaa6", "Cam", "cam@example.com", "Student"⟩

/-- A complaint already in status resolved. -/
def resolvedComplaint : StoredComplaint :=
  ⟨"aaaaaaaaaaaaaaaaaaaaaaa9", "s1", "plumbing", "leak", "resolved"⟩

/-- Store holding exactly resolvedComplaint. -/
def complaintDB : DB :=
  { complaint := [resolvedComplaint] }

/-- Complaint update body whose complaint id differs from every path used. -/
def mismatchUpd : ComplaintUpdateIn :=
  { complaint_id := "aaaaaaaaaaaaaaaaaaaaaab4", message := "checked",
    updated_by := "w1" }

/-- Complaint update body referencing resolvedComplaint itself. -/
def matchUpd : ComplaintUpdateIn :=
  { complaint_id := "aaaaaaaaaaaaaaaaaaaaaaa9", message := "on it",
    updated_by := "w1" }

/-- A room with a free bed. -/
def availRoom : StoredRoom :=
  ⟨"aaaaaaaaaaaaaaaaaaaaaab1", "h1", "B201", 2, 1, none, none⟩

/-- A room at capacity. -/
def fullRoom : StoredRoom :=
  ⟨"aaaaaaaaaaaaaaaaaaaaaab2", "h1", "B202", 2, 2, none, none⟩

/-- Store holding one available and one full room. -/
def roomsDB : DB :=
  { room := [availRoom, fullRoom] }

/-- Room creation body that submits a nonzero starting occupancy. -/
def badRoomBody : RoomCreate :=
  { hostel_id := "h1", room_no := "A102", capacity := 2, current_occupancy := 5 }

/-- The empty store. -/
def emptyDB : DB :=
  {}

/-- A leave request already approved. -/
def leave0 : StoredLeave :=
  ⟨"aaaaaaaaaaaaaaaaaaaaaab3", "s1", "2024-01-01", "2024-01-05", none, "approved"⟩

/-- Store holding exactly leave0. -/
def leaveDB : DB :=
  { leaverequest := [leave0] }

/-- Authenticated identity with the exact lowercase role student, not the
owner of ownerStudent. -/
def studentAuth : AuthUser :=
  ⟨"aaaaaaaaaaaaaaaaaaaaaab5", "Stu", "stu@example.com", "student"⟩

/-! Helper lemmas about updateFirst, shared by several claims. -/

/-- If the first match of p in l is r and f preserves p, then after rewriting
the first match the first match of p is f r. -/
theorem find?_updateFirst {α : Type} (p : α → Bool) (f : α → α)
    (hf : ∀ x, p (f x) = p x) :
    ∀ (l : List α) (r : α), l.find? p = some r →
      (updateFirst p f l).find? p = some (f r)
  | [], r, h => by simp [List.find?] at h
  | x :: xs, r, h => by
    cases hpx : p x with
    | true =>
      rw [List.find?_cons_of_pos _ hpx] at h
      cases h
      have hfx : p (f x) = true := by rw [hf]; exact hpx
      simp [updateFirst, hpx, List.find?_cons_of_pos _ hfx]
    | false =>
      rw [List.find?_cons_of_neg _ (by simp [hpx])] at h
      simp [updateFirst, hpx, List.find?_cons_of_neg _ (by simp [hpx] : ¬ p x = true)]
      exact find?_updateFirst p f hf xs r h

/-- An element that does not satisfy p is still in the list after the first
match of p is rewritten. -/
theorem mem_updateFirst {α : Type} (p : α → Bool) (f : α → α) :
    ∀ (l : List α) (x : α), x ∈ l → p x = false → x ∈ updateFirst p f l
  | [], x, hx, _ => by simp at hx
  | y :: ys, x, hx, hpx => by
    cases hpy : p y with
    | true =>
      simp [updateFirst, hpy]
      rcases List.mem_cons.mp hx with rfl | hmem
      · rw [hpx] at hpy; exact absurd hpy (by simp)
      · exact Or.inr hmem
    | false =>
      simp [updateFirst, hpy]
      rcases List.mem_cons.mp hx with rfl | hmem
      · exact Or.inl rfl
      · exact Or.inr (mem_updateFirst p f ys x hmem hpx)

/-- C1: for every token presented to get_current_user: a signature-valid
token whose expiry is strictly before the current time fails with the 401
Token expired response; a token whose signature does not verify fails with
the 401 Invalid token response; in both cases no identity is returned.  On a
successful decode the user is re-fetched by the embedded subject id (here a
well-formed store identifier, the malformed case being settled separately):
an absent user fails with 401 User not found, a present user is returned as
the identity built from the re-fetched record. -/
theorem C1_token_validation (secret : String) (now : Nat) (d : DB) (t : Token) :
    (t.sig = signPayload secret t.payload → t.payload.exp < now →
      get_current_user secret now d t = AuthOutcome.err 401 ("Token expired"))
  ∧ (t.sig ≠ signPayload secret t.payload →
      get_current_user secret now d t = AuthOutcome.err 401 ("Invalid token"))
  ∧ (∀ u : AuthUser, (t.payload.exp < now ∨ t.sig ≠ signPayload secret t.payload) →
      get_current_user secret now d t ≠ AuthOutcome.ok u)
  ∧ (t.sig = signPayload secret t.payload → now < t.payload.exp →
      isValidObjectId t.payload.sub = true →
      d.user.find? (fun u => u.id == t.payload.sub) = none →
      get_current_user secret now d t = AuthOutcome.err 401 ("User not found"))
  ∧ (∀ u : StoredUser, t.sig = signPayload secret t.payload → now < t.payload.exp →
      isValidObjectId t.payload.sub = true →
      d.user.find? (fun v => v.id == t.payload.sub) = some u →
      get_current_user secret now d t = AuthOutcome.ok ⟨u.id, u.name, u.email, u.role⟩) := by
  refine ⟨?_, ?_, ?_, ?_, ?_⟩
  · intro hsig hlt
    simp [get_current_user, jwtDecode, hsig, Nat.le_of_lt hlt]
  · intro hsig
    simp [get_current_user, jwtDecode, hsig]
  · intro u h
    by_cases hsig : t.sig = signPayload secret t.payload
    · rcases h with hlt | hne
      · simp [get_current_user, jwtDecode, hsig, Nat.le_of_lt hlt]
      · exact absurd hsig hne
    · simp [get_current_user, jwtDecode, hsig]
  · intro hsig hnow hvalid hfind
    simp [get_current_user, jwtDecode, hsig, Nat.not_le.mpr hnow, objectId?, hvalid, hfind]
  · intro u hsig hnow hvalid hfind
    simp [get_current_user, jwtDecode, hsig, Nat.not_le.mpr hnow, objectId?, hvalid, hfind]

/-- Witness for C1: the expired, tampered, user-less and successful cases of
token validation at concrete tokens against the concrete store demoDB. -/
theorem C1_token_validation_witness :
    get_current_user ("dev-secret") 100 demoDB expiredToken = AuthOutcome.err 401 ("Token expired")
  ∧ get_current_user ("dev-secret") 0 demoDB tamperedToken = AuthOutcome.err 401 ("Invalid token")
  ∧ get_current_user ("dev-secret") 0 demoDB ghostToken = AuthOutcome.err 401 ("User not found")
  ∧ get_current_user ("dev-secret") 0 demoDB okToken =
      AuthOutcome.ok ⟨"aaaaaaaaaaaaaaaaaaaaaaa1", "Ann", "ann@example.com", "warden"⟩ := by
  refine ⟨?_, ?_, ?_, ?_⟩
  · exact (C1_token_validation ("dev-secret") 100 demoDB expiredToken).1 rfl (by decide)
  · exact (C1_token_validation ("dev-secret") 0 demoDB tamperedToken).2.1 (by decide)
  · exact (C1_token_validation ("dev-secret") 0 demoDB ghostToken).2.2.2.1 rfl (by decide)
      (by decide) (by decide)
  · exact (C1_token_validation ("dev-secret") 0 demoDB okToken).2.2.2.2 demoUser rfl
      (by decide) (by decide) (by decide)

/-- C2 counterexample: the claim quantifies over every stored User, but the
store does not enforce email uniqueness and login consults only the first
document matching the email.  Here dupUserB is stored with email
dup@example.com and password pw-b, yet login with exactly those credentials
fails with 401, because the first match for the email is dupUserA. -/
theorem C2_login_counterexample :
    dupUserB ∈ dupDB.user
  ∧ dupUserB.email = "dup@example.com"
  ∧ dupUserB.password = "pw-b"
  ∧ login ("dev-secret") 60 0 dupDB ⟨"dup@example.com", "pw-b"⟩ =
      ApiResult.err 401 ("Invalid email or password") := by
  decide

/-- C2 amended: for every stored User that is the FIRST store match for the
request email: an exact password match yields a signed token whose payload
role equals the stored role and whose expiry is issue time plus the
configured minutes, together with the expiry seconds; an unknown email, or a
wrong password against that first match, fails with 401 and no token. -/
theorem C2_login_first_match (secret : String) (mins now : Nat) (d : DB)
    (data : LoginRequest) :
    (∀ u : StoredUser, d.user.find? (fun v => v.email == data.email) = some u →
      u.password = data.password →
        login secret mins now d data =
          ApiResult.ok
            { access_token := encode_token secret mins now u, expires_in := mins * 60 }
        ∧ (encode_token secret mins now u).payload.role = u.role
        ∧ (encode_token secret mins now u).payload.exp = now + mins * 60
        ∧ (encode_token secret mins now u).sig =
            signPayload secret (encode_token secret mins now u).payload)
  ∧ (d.user.find? (fun v => v.email == data.email) = none →
      login secret mins now d data = ApiResult.err 401 ("Invalid email or password"))
  ∧ (∀ u : StoredUser, d.user.find? (fun v => v.email == data.email) = some u →
      u.password ≠ data.password →
      login secret mins now d data = ApiResult.err 401 ("Invalid email or password")) := by
  refine ⟨?_, ?_, ?_⟩
  · intro u hfind hpw
    exact ⟨by simp [login, hfind, hpw], rfl, rfl, rfl⟩
  · intro hfind
    simp [login, hfind]
  · intro u hfind hpw
    simp [login, hfind, bne_iff_ne, hpw]

/-- Witness for C2 amended: a successful login against demoDB and a failed
one with an unknown email, at concrete inputs. -/
theorem C2_login_first_match_witness :
    login ("dev-secret") 60 0 demoDB ⟨"ann@example.com", "pw"⟩ =
      ApiResult.ok
        { access_token := encode_token ("dev-secret") 60 0 demoUser, expires_in := 3600 }
  ∧ (encode_token ("dev-secret") 60 0 demoUser).payload.role = "warden"
  ∧ (encode_token ("dev-secret") 60 0 demoUser).payload.exp = 3600
  ∧ login ("dev-secret") 60 0 demoDB ⟨"none@example.com", "pw"⟩ =
      ApiResult.err 401 ("Invalid email or password") := by
  have h1 := (C2_login_first_match ("dev-secret") 60 0 demoDB
    ⟨"ann@example.com", "pw"⟩).1 demoUser (by decide) rfl
  have h2 := (C2_login_first_match ("dev-secret") 60 0 demoDB
    ⟨"none@example.com", "pw"⟩).2.1 (by decide)
  exact ⟨h1.1, h1.2.1, h1.2.2.1, h2⟩

/-- Effect of a sequence of allocation requests that all target the room with
id oid: the allocation collection grows by one record per request and the
occupancy of the first room matching oid grows by the number of requests,
with no reference to capacity. -/
theorem allocateList_effect (oid : String) :
    ∀ (as : List RoomAllocationIn) (d : DB) (r : StoredRoom),
      (∀ a ∈ as, to_object_id a.room_id = some oid) →
      d.room.find? (fun x => x.id == oid) = some r →
      (allocateList as d).roomallocation.length = d.roomallocation.length + as.length
      ∧ (allocateList as d).room.find? (fun x => x.id == oid) =
          some { r with current_occupancy := r.current_occupancy + (as.length : Int) }
  | [], d, r, _, hfind => by
    simp [allocateList, hfind]
  | a :: as2, d, r, hall, hfind => by
    have ha : to_object_id a.room_id = some oid := hall a (List.mem_cons_self a as2)
    have hroom : (allocate_room d a).2.room =
        updateFirst (fun x => x.id == oid)
          (fun x => { x with current_occupancy := x.current_occupancy + 1 }) d.room := by
      simp [allocate_room, ha]
    have hlen1 : (allocate_room d a).2.roomallocation.length =
        d.roomallocation.length + 1 := by
      simp [allocate_room, ha]
    have hfind1 : (allocate_room d a).2.room.find? (fun x => x.id == oid) =
        some { r with current_occupancy := r.current_occupancy + 1 } := by
      rw [hroom]
      exact find?_updateFirst (fun x => x.id == oid)
        (fun x => { x with current_occupancy := x.current_occupancy + 1 })
        (fun x => rfl) d.room r hfind
    have ih := allocateList_effect oid as2 (allocate_room d a).2
      { r with current_occupancy := r.current_occupancy + 1 }
      (fun b hb => hall b (List.mem_cons_of_mem a hb)) hfind1
    constructor
    · simp only [allocateList]
      rw [ih.1, hlen1, List.length_cons]
      omega
    · simp only [allocateList]
      rw [ih.2]
      simp only [Option.some.injEq, List.length_cons]
      congr 1
      push_cast
      ring

/-- C3: for every room and every sequence of N allocation requests against
it, the store gains N RoomAllocation records and the room occupancy grows by
exactly N, with no capacity hypothesis anywhere (so also when N exceeds the
capacity); moreover for every state and every request with a well-formed
room id, allocate_room returns the id of the freshly created allocation
record, whether or not any room matches the id (the increment silently
matches nothing in the latter case). -/
theorem C3_allocation_unguarded (d : DB) (oid : String) (r : StoredRoom)
    (as : List RoomAllocationIn)
    (hall : ∀ a ∈ as, to_object_id a.room_id = some oid)
    (hfind : d.room.find? (fun x => x.id == oid) = some r) :
    (allocateList as d).roomallocation.length = d.roomallocation.length + as.length
  ∧ (allocateList as d).room.find? (fun x => x.id == oid) =
      some { r with current_occupancy := r.current_occupancy + (as.length : Int) }
  ∧ (∀ (s : DB) (a : RoomAllocationIn), isValidObjectId a.room_id = true →
      (allocate_room s a).1 = ApiResult.ok (freshId s)
      ∧ (allocate_room s a).2.roomallocation =
          s.roomallocation ++
            [⟨freshId s, a.student_id, a.room_id, a.allocation_date, a.exit_date⟩]) := by
  have h := allocateList_effect oid as d r hall hfind
  refine ⟨h.1, h.2, ?_⟩
  intro s a hv
  constructor
  · simp [allocate_room, to_object_id, objectId?, hv]
  · simp [allocate_room, to_object_id, objectId?, hv]

/-- Witness for C3: three allocations against the capacity-2 room demoRoom
overshoot its capacity, create three records, and each call returns the
fresh id. -/
theorem C3_allocation_unguarded_witness :
    demoRoom.capacity = 2
  ∧ (allocateList [demoAlloc, demoAlloc, demoAlloc] allocDB).roomallocation.length =
      allocDB.roomallocation.length + 3
  ∧ (allocateList [demoAlloc, demoAlloc, demoAlloc] allocDB).room.find?
      (fun x => x.id == "aaaaaaaaaaaaaaaaaaaaaaa5") =
      some ⟨"aaaaaaaaaaaaaaaaaaaaaaa5", "h1", "A101", 2, 3, none, none⟩
  ∧ (allocate_room allocDB demoAlloc).1 = ApiResult.ok (freshId allocDB) := by
  have h := C3_allocation_unguarded allocDB ("aaaaaaaaaaaaaaaaaaaaaaa5") demoRoom
    [demoAlloc, demoAlloc, demoAlloc] (by decide) (by decide)
  refine ⟨by decide, h.1, ?_, (h.2.2 allocDB demoAlloc (by decide)).1⟩
  rw [h.2.1]
  decide

/-- C4 counterexample: the claim asserts Forbidden for a student identity
under any spelling or casing of the role string, but the role check is an
exact string comparison.  A stored user whose role is Student with a capital
letter authenticates, is not the owner of ownerStudent, and still reads that
record successfully. -/
theorem C4_role_case_counterexample :
    get_current_user ("dev-secret") 0 caseDB caseToken = AuthOutcome.ok caseAuth
  ∧ caseAuth.role = "Student"
  ∧ ownerStudent ∈ caseDB.student
  ∧ ownerStudent.user_id ≠ caseAuth.id
  ∧ get_student ("aaaaaaaaaaaaaaaaaaaaaaa7") caseAuth caseDB = ApiResult.ok ownerStudent := by
  decide

/-- C4 amended: for every authenticated identity whose role is exactly the
lowercase string student, reading an existing student record it does not own
fails with 403 Forbidden, reading an absent record fails with 404 for every
identity, and the absence check precedes the ownership check (the 404 case
needs no hypothesis about the identity at all). -/
theorem C4_get_student_checks (d : DB) (user : AuthUser) (sid oid : String) :
    (to_object_id sid = some oid →
      d.student.find? (fun s => s.id == oid) = none →
      get_student sid user d = ApiResult.err 404 ("Student not found"))
  ∧ (∀ doc : StoredStudent, to_object_id sid = some oid →
      d.student.find? (fun s => s.id == oid) = some doc →
      user.role = "student" → doc.user_id ≠ user.id →
      get_student sid user d = ApiResult.err 403 ("Forbidden")) := by
  constructor
  · intro h1 h2
    simp [get_student, h1, h2]
  · intro doc h1 h2 hrole hown
    simp [get_student, h1, h2, hrole, bne_iff_ne, hown]

/-- Witness for C4 amended: the student identity studentAuth is refused the
record of another student with 403, and an absent record yields 404, at
concrete inputs. -/
theorem C4_get_student_checks_witness :
    get_student ("aaaaaaaaaaaaaaaaaaaaaaa7") studentAuth caseDB =
      ApiResult.err 403 ("Forbidden")
  ∧ get_student ("aaaaaaaaaaaaaaaaaaaaaab6") studentAuth caseDB =
      ApiResult.err 404 ("Student not found") := by
  constructor
  · exact (C4_get_student_checks caseDB studentAuth ("aaaaaaaaaaaaaaaaaaaaaaa7")
      ("aaaaaaaaaaaaaaaaaaaaaaa7")).2 ownerStudent (by decide) (by decide) rfl (by decide)
  · exact (C4_get_student_checks caseDB studentAuth ("aaaaaaaaaaaaaaaaaaaaaab6")
      ("aaaaaaaaaaaaaaaaaaaaaab6")).1 (by decide) (by decide)

/-- C5: adding a complaint update fails with 404 and leaves the store
untouched when no complaint matches the path id; otherwise it appends the
ComplaintUpdate record, returns its fresh id, and sets the status of the
matched complaint to in-progress with no hypothesis on its previous status
(so also when it was already resolved or closed). -/
theorem C5_complaint_update (d : DB) (cid oid : String) (upd : ComplaintUpdateIn) :
    (to_object_id cid = some oid →
      d.complaint.find? (fun c => c.id == oid) = none →
      add_complaint_update cid upd d = (ApiResult.err 404 ("Complaint not found"), d))
  ∧ (∀ c : StoredComplaint, to_object_id cid = some oid →
      d.complaint.find? (fun x => x.id == oid) = some c →
      (add_complaint_update cid upd d).1 = ApiResult.ok (freshId d)
      ∧ (add_complaint_update cid upd d).2.complaintupdate =
          d.complaintupdate ++ [⟨freshId d, upd.complaint_id, upd.message, upd.updated_by⟩]
      ∧ (add_complaint_update cid upd d).2.complaint.find? (fun x => x.id == oid) =
          some { c with status := "in_progress" }) := by
  constructor
  · intro h1 h2
    simp [add_complaint_update, h1, h2]
  · intro c h1 h2
    refine ⟨?_, ?_, ?_⟩
    · simp [add_complaint_update, h1, h2]
    · simp [add_complaint_update, h1, h2]
    · simp only [add_complaint_update, h1, h2]
      exact find?_updateFirst (fun x => x.id == oid)
        (fun x => { x with status := "in_progress" }) (fun x => rfl) d.complaint c h2

/-- Witness for C5: an update against the already resolved complaint forces
its status back to in-progress, and an update against an absent complaint
fails with 404, at concrete inputs. -/
theorem C5_complaint_update_witness :
    resolvedComplaint.status = "resolved"
  ∧ (add_complaint_update ("aaaaaaaaaaaaaaaaaaaaaaa9") matchUpd complaintDB).1 =
      ApiResult.ok (freshId complaintDB)
  ∧ (add_complaint_update ("aaaaaaaaaaaaaaaaaaaaaaa9") matchUpd complaintDB).2.complaint.find?
      (fun x => x.id == "aaaaaaaaaaaaaaaaaaaaaaa9") =
      some { resolvedComplaint with status := "in_progress" }
  ∧ add_complaint_update ("aaaaaaaaaaaaaaaaaaaaaab6") matchUpd complaintDB =
      (ApiResult.err 404 ("Complaint not found"), complaintDB) := by
  have h := (C5_complaint_update complaintDB ("aaaaaaaaaaaaaaaaaaaaaaa9")
    ("aaaaaaaaaaaaaaaaaaaaaaa9") matchUpd).2 resolvedComplaint (by decide) (by decide)
  have h404 := (C5_complaint_update complaintDB ("aaaaaaaaaaaaaaaaaaaaaab6")
    ("aaaaaaaaaaaaaaaaaaaaaab6") matchUpd).1 (by decide) (by decide)
  exact ⟨rfl, h.1, h.2.2, h404⟩

/-- C6 counterexample: the claim calls the list-available-rooms operation a
protected route that rejects tokenless requests before the handler runs, but
the handler declares no security dependency.  A request with no bearer token
at all succeeds and receives the filtered room list. -/
theorem C6_available_rooms_counterexample :
    get_available_rooms_route none roomsDB = ApiResult.ok [availRoom]
  ∧ availRoom.current_occupancy < availRoom.capacity
  ∧ ¬ fullRoom.current_occupancy < fullRoom.capacity := by
  decide

/-- C6 amended: the list-available-rooms route requires no authentication:
for every request, with or without a bearer token, it returns exactly the
rooms whose current occupancy is strictly below their capacity. -/
theorem C6_available_rooms_public (auth : Option Token) (d : DB) (r : StoredRoom) :
    get_available_rooms_route auth d =
      ApiResult.ok (d.room.filter (fun x => x.current_occupancy < x.capacity))
  ∧ (r ∈ d.room.filter (fun x => x.current_occupancy < x.capacity) ↔
      r ∈ d.room ∧ r.current_occupancy < r.capacity) := by
  constructor
  · rfl
  · simp [List.mem_filter]

/-- C7 counterexample: the claim says room creation does not let the caller
choose a starting occupancy other than 0, but current_occupancy is an
ordinary settable field of the Room body: a body with occupancy 5 passes the
boundary check (which only constrains capacity) and is stored verbatim. -/
theorem C7_occupancy_counterexample :
    RoomCreate.valid badRoomBody = true
  ∧ badRoomBody.current_occupancy = 5
  ∧ (create_room emptyDB badRoomBody).1 = ApiResult.ok (freshId emptyDB)
  ∧ (create_room emptyDB badRoomBody).2.room =
      [⟨freshId emptyDB, "h1", "A102", 2, 5, none, none⟩] := by
  decide

/-- C7 amended: exactly two operations write room documents.  Room creation
appends a room whose occupancy is the client-submitted value (0 only by
default), and room allocation rewrites the first room matching the target id
by incrementing its occupancy by 1 (leaving the rooms untouched when the id
is malformed); the other state-changing operations never touch the room
collection, and the read-only handlers return no state at all. -/
theorem C7_occupancy_writes (d : DB) (body : RoomCreate) (alloc : RoomAllocationIn) :
    (create_room d body).2.room =
      d.room ++ [⟨freshId d, body.hostel_id, body.room_no, body.capacity,
        body.current_occupancy, body.type, body.floor⟩]
  ∧ (∀ oid : String, to_object_id alloc.room_id = some oid →
      (allocate_room d alloc).2.room =
        updateFirst (fun r => r.id == oid)
          (fun r => { r with current_occupancy := r.current_occupancy + 1 }) d.room)
  ∧ (to_object_id alloc.room_id = none → (allocate_room d alloc).2.room = d.room)
  ∧ (∀ (lid : String) (b : LeaveStatusBody),
      (update_leave_status lid b d).2.room = d.room)
  ∧ (∀ (cid : String) (u : ComplaintUpdateIn),
      (add_complaint_update cid u d).2.room = d.room) := by
  refine ⟨rfl, ?_, ?_, ?_, ?_⟩
  · intro oid h
    simp [allocate_room, h]
  · intro h
    simp [allocate_room, h]
  · intro lid b
    simp only [update_leave_status]
    cases h : to_object_id lid
    · rfl
    · simp only []
      split <;> rfl
  · intro cid u
    simp only [add_complaint_update]
    cases h : to_object_id cid with
    | none => rfl
    | some oid => cases h2 : d.complaint.find? (fun c => c.id == oid) <;> simp [h2]

/-- Witness for C7 amended at concrete inputs: an allocation against allocDB
rewrites only the matched room by the increment, and a leave status update
leaves the room collection unchanged. -/
theorem C7_occupancy_writes_witness :
    (allocate_room allocDB demoAlloc).2.room =
      updateFirst (fun r => r.id == "aaaaaaaaaaaaaaaaaaaaaaa5")
        (fun r => { r with current_occupancy := r.current_occupancy + 1 }) allocDB.room
  ∧ (update_leave_status ("aaaaaaaaaaaaaaaaaaaaaab3") ⟨"approved"⟩ allocDB).2.room =
      allocDB.room := by
  have h := C7_occupancy_writes allocDB badRoomBody demoAlloc
  exact ⟨h.2.1 ("aaaaaaaaaaaaaaaaaaaaaaa5") (by decide),
    h.2.2.2.1 ("aaaaaaaaaaaaaaaaaaaaaab3") ⟨"approved"⟩⟩

/-- C8: the status-update body declares status as a plain string, so the
boundary accepts any value: updating the approved leave request with the
string banana succeeds and stores banana, which is outside the closed set
pending, approved, rejected that the claim asserts. -/
theorem C8_leave_status_unchecked :
    leave0.status = "approved"
  ∧ (update_leave_status ("aaaaaaaaaaaaaaaaaaaaaab3") ⟨"banana"⟩ leaveDB).1 =
      ApiResult.ok true
  ∧ (update_leave_status ("aaaaaaaaaaaaaaaaaaaaaab3") ⟨"banana"⟩ leaveDB).2.leaverequest =
      [{ leave0 with status := "banana" }]
  ∧ ¬ ("banana" = "pending" ∨ "banana" = "approved" ∨ "banana" = "rejected") := by
  decide

/-- C9: a token signed with the active secret and unexpired, whose embedded
subject id is not a well-formed store identifier, makes get_current_user
raise the bson InvalidId exception uncaught (the raw ObjectId constructor on
line 76 sits outside the try block and is not the classifying to_object_id
helper), instead of producing one of the classified structured errors. -/
theorem C9_malformed_subject_uncaught :
    badSubToken.sig = signPayload ("dev-secret") badSubToken.payload
  ∧ 100 < badSubToken.payload.exp
  ∧ isValidObjectId badSubToken.payload.sub = false
  ∧ get_current_user ("dev-secret") 100 demoDB badSubToken = AuthOutcome.uncaught := by
  decide

/-- C10: add_complaint_update never compares the complaint id in the body
with the one in the path: when they differ the operation still succeeds, the
stored ComplaintUpdate record carries the body id, while the existence check
and the forced in-progress transition are keyed on the path id, and every
complaint not matching the path id is left in the store unchanged. -/
theorem C10_body_path_mismatch (d : DB) (cid oid : String) (upd : ComplaintUpdateIn)
    (c : StoredComplaint)
    (h1 : to_object_id cid = some oid)
    (hne : upd.complaint_id ≠ cid)
    (h2 : d.complaint.find? (fun x => x.id == oid) = some c) :
    (add_complaint_update cid upd d).1 = ApiResult.ok (freshId d)
  ∧ (add_complaint_update cid upd d).2.complaintupdate =
      d.complaintupdate ++ [⟨freshId d, upd.complaint_id, upd.message, upd.updated_by⟩]
  ∧ (add_complaint_update cid upd d).2.complaint.find? (fun x => x.id == oid) =
      some { c with status := "in_progress" }
  ∧ (∀ x ∈ d.complaint, (x.id == oid) = false →
      x ∈ (add_complaint_update cid upd d).2.complaint) := by
  refine ⟨?_, ?_, ?_, ?_⟩
  · simp [add_complaint_update, h1, h2]
  · simp [add_complaint_update, h1, h2]
  · simp only [add_complaint_update, h1, h2]
    exact find?_updateFirst (fun x => x.id == oid)
      (fun x => { x with status := "in_progress" }) (fun x => rfl) d.complaint c h2
  · intro x hx hpx
    simp only [add_complaint_update, h1, h2]
    exact mem_updateFirst (fun y => y.id == oid)
      (fun y => { y with status := "in_progress" }) d.complaint x hx hpx

/-- Witness for C10: a body referencing a different complaint id than the
path still succeeds; the stored record carries the body id while the path
complaint gets forced to in-progress, at concrete inputs. -/
theorem C10_body_path_mismatch_witness :
    mismatchUpd.complaint_id ≠ "aaaaaaaaaaaaaaaaaaaaaaa9"
  ∧ (add_complaint_update ("aaaaaaaaaaaaaaaaaaaaaaa9") mismatchUpd complaintDB).1 =
      ApiResult.ok (freshId complaintDB)
  ∧ (add_complaint_update ("aaaaaaaaaaaaaaaaaaaaaaa9") mismatchUpd complaintDB).2.complaintupdate =
      [⟨freshId complaintDB, "aaaaaaaaaaaaaaaaaaaaaab4", "checked", "w1"⟩]
  ∧ (add_complaint_update ("aaaaaaaaaaaaaaaaaaaaaaa9") mismatchUpd complaintDB).2.complaint.find?
      (fun x => x.id == "aaaaaaaaaaaaaaaaaaaaaaa9") =
      some { resolvedComplaint with status := "in_progress" } := by
  have h := C10_body_path_mismatch complaintDB ("aaaaaaaaaaaaaaaaaaaaaaa9")
    ("aaaaaaaaaaaaaaaaaaaaaaa9") mismatchUpd resolvedComplaint (by decide) (by decide)
    (by decide)
  exact ⟨by decide, h.1, h.2.1, h.2.2.1⟩

end Hostel





